import Mathlib

/-!
# PedalPath v2 component codecs — a verified shallow embedding

This file embeds the two codecs of the PedalPath v2 reference code
(`resistor_decoder.py` and `capacitor_decoder.py`) as executable Lean
definitions and proves properties of them.

Modelling conventions:
* Python floats are modelled as exact rationals (`ℚ`); the reference code
  treats them as real numbers (decimal literals, divisions, comparisons).
* Python `round` is round-half-to-even (banker's rounding), modelled by
  `pyRound`; `round(x, 2)` is `pyRound2`.
* Python dict lookups are `Option`-returning functions; a `KeyError` or
  `ValueError` raised by the code is an `Except.error` with a dedicated
  error constructor.
* Strings are processed as `List Char`; the anchored regular expressions of
  the capacitor decoder are embedded as recursive-descent parsers that
  reproduce the greedy/backtracking behaviour of the originals on the
  relevant alphabet (digits, unit letters, tolerance letters, spaces).
-/

attribute [local semireducible] Rat.add Rat.mul Rat.inv Rat.sub Rat.ofScientific

set_option maxRecDepth 40000

deriving instance DecidableEq for Except

namespace PedalPath

/-- Python `round`: round to nearest integer, ties to even. -/
def pyRound (q : ℚ) : ℤ :=
  if q - (⌊q⌋ : ℚ) < 1/2 then ⌊q⌋
  else if 1/2 < q - (⌊q⌋ : ℚ) then ⌊q⌋ + 1
  else if ⌊q⌋ % 2 = 0 then ⌊q⌋ else ⌊q⌋ + 1

/-- Python `round(x, 2)`. -/
def pyRound2 (q : ℚ) : ℚ := (pyRound (q * 100) : ℚ) / 100

/-- Floor of the base-10 logarithm of a natural number, with explicit fuel
so that it computes by structural recursion. -/
def natLog10Fuel : ℕ → ℕ → ℕ
  | 0, _ => 0
  | fuel + 1, n => if n < 10 then 0 else natLog10Fuel fuel (n / 10) + 1

/-- Least `k` (starting from `k₀`) with `1 ≤ q * 10 ^ k`, searched with
explicit fuel. -/
def leastPow10 : ℕ → ℚ → ℕ → ℕ
  | 0, _, k => k
  | fuel + 1, q, k => if 1 ≤ q * 10 ^ k then k else leastPow10 fuel q (k + 1)

/-- `math.floor(math.log10 q)` for a positive rational `q`. -/
def qFloorLog10 (q : ℚ) : ℤ :=
  if 1 ≤ q then (natLog10Fuel ⌊q⌋.toNat ⌊q⌋.toNat : ℤ)
  else -(leastPow10 q.den q 0 : ℤ)

/-- Decimal digits of a natural number (fuel-based `str(n)`). -/
def natToStrAux : ℕ → ℕ → List Char → List Char
  | 0, _, acc => acc
  | fuel + 1, n, acc =>
    let d := Char.ofNat (48 + n % 10)
    if n < 10 then d :: acc
    else natToStrAux fuel (n / 10) (d :: acc)

/-- `str(n)` for a natural number. -/
def natToStr (n : ℕ) : String := String.mk (natToStrAux (n + 1) n [])

/-- The whitespace characters recognised by Python `str.strip` / regex `\s`
(ASCII range). -/
def pyIsSpace (c : Char) : Bool :=
  c == ' ' || c == '\t' || c == '\n' || c == '\r' || c == '\x0b' || c == '\x0c'

/-- Python `str.strip()`. -/
def pyStrip (cs : List Char) : List Char :=
  ((cs.dropWhile pyIsSpace).reverse.dropWhile pyIsSpace).reverse

/-- `b.strip().lower()` applied to a band colour name. -/
def normColor (s : String) : String :=
  String.mk ((pyStrip s.data).map Char.toLower)

/-! ## Resistor lookup tables (`resistor_decoder.py`, complete per IEC 60062) -/

/-- `DIGIT_COLORS` dict: colour name → digit (with aliases). -/
def DIGIT_COLORS : String → Option ℕ
  | "black" => some 0
  | "brown" => some 1
  | "red" => some 2
  | "orange" => some 3
  | "yellow" => some 4
  | "green" => some 5
  | "blue" => some 6
  | "violet" => some 7
  | "purple" => some 7
  | "gray" => some 8
  | "grey" => some 8
  | "white" => some 9
  | _ => none

/-- `DIGIT_TO_COLOR` dict: digit → canonical colour name (no aliases). -/
def DIGIT_TO_COLOR (d : ℤ) : Option String :=
  if d = 0 then some ("black")
  else if d = 1 then some ("brown")
  else if d = 2 then some ("red")
  else if d = 3 then some ("orange")
  else if d = 4 then some ("yellow")
  else if d = 5 then some ("green")
  else if d = 6 then some ("blue")
  else if d = 7 then some ("violet")
  else if d = 8 then some ("gray")
  else if d = 9 then some ("white")
  else none

/-- `MULTIPLIER_COLORS` dict: colour name → multiplier value. -/
def MULTIPLIER_COLORS : String → Option ℚ
  | "black" => some 1
  | "brown" => some 10
  | "red" => some 100
  | "orange" => some 1000
  | "yellow" => some 10000
  | "green" => some 100000
  | "blue" => some 1000000
  | "violet" => some 10000000
  | "purple" => some 10000000
  | "gray" => some 100000000
  | "grey" => some 100000000
  | "white" => some 1000000000
  | "gold" => some (1/10)
  | "silver" => some (1/100)
  | _ => none

/-- `MULTIPLIER_TO_COLOR` dict: multiplier value → canonical colour name. -/
def MULTIPLIER_TO_COLOR (m : ℚ) : Option String :=
  if m = 1 then some ("black")
  else if m = 10 then some ("brown")
  else if m = 100 then some ("red")
  else if m = 1000 then some ("orange")
  else if m = 10000 then some ("yellow")
  else if m = 100000 then some ("green")
  else if m = 1000000 then some ("blue")
  else if m = 10000000 then some ("violet")
  else if m = 100000000 then some ("gray")
  else if m = 1000000000 then some ("white")
  else if m = 1/10 then some ("gold")
  else if m = 1/100 then some ("silver")
  else none

/-- `sorted(MULTIPLIER_TO_COLOR.keys())`: the multiplier values in ascending
numeric order, fractional ones first. -/
def MULTIPLIER_VALUES_ASC : List ℚ :=
  [1/100, 1/10, 1, 10, 100, 1000, 10000, 100000, 1000000, 10000000,
   100000000, 1000000000]

/-- `TOLERANCE_COLORS` dict: colour name → tolerance percent (with aliases). -/
def TOLERANCE_COLORS : String → Option ℚ
  | "brown" => some 1
  | "red" => some 2
  | "green" => some (1/2)
  | "blue" => some (1/4)
  | "violet" => some (1/10)
  | "purple" => some (1/10)
  | "gray" => some (1/20)
  | "grey" => some (1/20)
  | "gold" => some 5
  | "silver" => some 10
  | _ => none

/-- `TOLERANCE_TO_COLOR` dict: tolerance percent → canonical colour name. -/
def TOLERANCE_TO_COLOR (t : ℚ) : Option String :=
  if t = 1/20 then some ("gray")
  else if t = 1/10 then some ("violet")
  else if t = 1/4 then some ("blue")
  else if t = 1/2 then some ("green")
  else if t = 1 then some ("brown")
  else if t = 2 then some ("red")
  else if t = 5 then some ("gold")
  else if t = 10 then some ("silver")
  else none

/-! ## E-series tables and the series matcher -/

/-- `E12_VALUES`. -/
def E12_VALUES : List ℚ :=
  [1.0, 1.2, 1.5, 1.8, 2.2, 2.7, 3.3, 3.9, 4.7, 5.6, 6.8, 8.2]

/-- `E24_VALUES`. -/
def E24_VALUES : List ℚ :=
  [1.0, 1.1, 1.2, 1.3, 1.5, 1.6, 1.8, 2.0, 2.2, 2.4, 2.7, 3.0,
   3.3, 3.6, 3.9, 4.3, 4.7, 5.1, 5.6, 6.2, 6.8, 7.5, 8.2, 9.1]

/-- `E48_VALUES`. -/
def E48_VALUES : List ℚ :=
  [1.00, 1.05, 1.10, 1.15, 1.21, 1.27, 1.33, 1.40, 1.47, 1.54,
   1.62, 1.69, 1.78, 1.87, 1.96, 2.05, 2.15, 2.26, 2.37, 2.49,
   2.61, 2.74, 2.87, 3.01, 3.16, 3.32, 3.48, 3.65, 3.83, 4.02,
   4.22, 4.42, 4.64, 4.87, 5.11, 5.36, 5.62, 5.90, 6.19, 6.49,
   6.81, 7.15, 7.50, 7.87, 8.25, 8.66, 9.09, 9.53]

/-- `E96_VALUES`. -/
def E96_VALUES : List ℚ :=
  [1.00, 1.02, 1.05, 1.07, 1.10, 1.13, 1.15, 1.18, 1.21, 1.24,
   1.27, 1.30, 1.33, 1.37, 1.40, 1.43, 1.47, 1.50, 1.54, 1.58,
   1.62, 1.65, 1.69, 1.74, 1.78, 1.82, 1.87, 1.91, 1.96, 2.00,
   2.05, 2.10, 2.15, 2.21, 2.26, 2.32, 2.37, 2.43, 2.49, 2.55,
   2.61, 2.67, 2.74, 2.80, 2.87, 2.94, 3.01, 3.09, 3.16, 3.24,
   3.32, 3.40, 3.48, 3.57, 3.65, 3.74, 3.83, 3.92, 4.02, 4.12,
   4.22, 4.32, 4.42, 4.53, 4.64, 4.75, 4.87, 4.99, 5.11, 5.23,
   5.36, 5.49, 5.62, 5.76, 5.90, 6.04, 6.19, 6.34, 6.49, 6.65,
   6.81, 6.98, 7.15, 7.32, 7.50, 7.68, 7.87, 8.06, 8.25, 8.45,
   8.66, 8.87, 9.09, 9.31, 9.53, 9.76]

/-- `E_SERIES`, in the iteration order of `find_e_series`. -/
def NAMED_E_SERIES : List (String × List ℚ) :=
  [("E12", E12_VALUES), ("E24", E24_VALUES), ("E48", E48_VALUES),
   ("E96", E96_VALUES)]

/-- The inner loop of `find_e_series`: does any value of the series lie
within 0.005 of the rounded significand? -/
def seriesHit (sigRounded : ℚ) (vals : List ℚ) : Bool :=
  vals.any (fun val => |pyRound2 val - sigRounded| < 0.005)

/-- One step of the nearest-E96 scan: keep the candidate with the strictly
smaller absolute difference. -/
def nearestStep (ohms decade : ℚ) (acc : Option (ℚ × ℚ)) (val : ℚ) :
    Option (ℚ × ℚ) :=
  let candidate := val * decade
  let diff := |candidate - ohms|
  match acc with
  | none => some (candidate, diff)
  | some (bv, bd) => if diff < bd then some (candidate, diff) else some (bv, bd)

/-- The no-match fallback of `find_e_series`: scan the E96 table across the
decade for the closest value (`best_diff` starts at infinity, modelled by the
`none` accumulator). -/
def nearestE96 (ohms decade : ℚ) : Option ℚ :=
  (E96_VALUES.foldl (nearestStep ohms decade) none).map (fun p => p.1)

/-- `find_e_series`: which E-series (if any) contains this value. -/
def find_e_series (ohms : ℚ) : Option String × Option ℚ :=
  if ohms ≤ 0 then (none, none)
  else
    let decade : ℚ := 10 ^ qFloorLog10 ohms
    let significand := ohms / decade
    let sigRounded := pyRound2 significand
    match NAMED_E_SERIES.findSome?
        (fun p => if seriesHit sigRounded p.2 then some p.1 else none) with
    | some name => (some name, none)
    | none => (none, nearestE96 ohms decade)

/-! ## Resistor decoder -/

/-- A `ValueError` raised by `decode_resistor`; the unknown-colour errors
carry the offending (normalised) colour name, as the Python message does. -/
inductive RDecodeErr
  | wrongBandCount (n : ℕ)
  | unknownColor5 (color : String)
  | unknownColor4 (color : String)
deriving DecidableEq

/-- `ResistorValue` dataclass. -/
structure ResistorValue where
  ohms : ℚ
  tolerance_percent : Option ℚ
  bands : List String
  e_series_match : Option String
  nearest_standard : Option ℚ
deriving DecidableEq

/-- Force an optional lookup, raising `e` on a missing key. -/
def need {α ε : Type} (o : Option α) (e : ε) : Except ε α :=
  match o with
  | some a => Except.ok a
  | none => Except.error e

/-- `decode_resistor`. -/
def decode_resistor (bands : List String) : Except RDecodeErr ResistorValue :=
  let normalized := bands.map normColor
  match normalized with
  | [d1, d2, d3, mult_band, tol_band] => do
      let v1 ← need (DIGIT_COLORS d1) (RDecodeErr.unknownColor5 d1)
      let v2 ← need (DIGIT_COLORS d2) (RDecodeErr.unknownColor5 d2)
      let v3 ← need (DIGIT_COLORS d3) (RDecodeErr.unknownColor5 d3)
      let multiplier ← need (MULTIPLIER_COLORS mult_band)
        (RDecodeErr.unknownColor5 mult_band)
      let digits : ℕ := v1 * 100 + v2 * 10 + v3
      let tolerance := TOLERANCE_COLORS tol_band
      let ohms : ℚ := (digits : ℚ) * multiplier
      let es := find_e_series ohms
      Except.ok ⟨ohms, tolerance, normalized, es.1, es.2⟩
  | [d1, d2, mult_band, tol_band] => do
      let v1 ← need (DIGIT_COLORS d1) (RDecodeErr.unknownColor4 d1)
      let v2 ← need (DIGIT_COLORS d2) (RDecodeErr.unknownColor4 d2)
      let multiplier ← need (MULTIPLIER_COLORS mult_band)
        (RDecodeErr.unknownColor4 mult_band)
      let digits : ℕ := v1 * 10 + v2
      let tolerance := TOLERANCE_COLORS tol_band
      let ohms : ℚ := (digits : ℚ) * multiplier
      let es := find_e_series ohms
      Except.ok ⟨ohms, tolerance, normalized, es.1, es.2⟩
  | _ => Except.error (RDecodeErr.wrongBandCount normalized.length)

/-! ## Resistor encoder -/

/-- A `ValueError` / `KeyError` raised by `encode_resistor`.
`digitKeyError` is the *uncaught* `KeyError` from `DIGIT_TO_COLOR[d]` when a
digit outside 0–9 is produced. -/
inductive REncodeErr
  | unsupportedTolerance (t : ℚ)
  | nonPositiveOhms
  | unrepresentable5Band (ohms : ℚ)
  | digitKeyError (d : ℤ)
  | multKeyError (m : ℚ)
deriving DecidableEq

/-- `EncodedResistor` dataclass. -/
structure EncodedResistor where
  ohms : ℚ
  bands_5 : List String
  bands_4 : Option (List String)
  tolerance_color : String
  tolerance_percent : ℚ
deriving DecidableEq

/-- The body of one iteration of the 5-band search loops: `none` means the
loop continues, `some` means the function returns (`Except.ok`) or raises
(`Except.error`). -/
def try5At (ohms : ℚ) (tol_color : String) (bound : ℚ) (m : ℚ) :
    Option (Except REncodeErr (List String)) :=
  let candidate := ohms / m
  if 99.5 ≤ candidate ∧ candidate ≤ 999.5 then
    let sig := pyRound candidate
    if |(sig : ℚ) * m - ohms| / max ohms 1e-12 < bound then
      some (do
        let c1 ← need (DIGIT_TO_COLOR (sig / 100))
          (REncodeErr.digitKeyError (sig / 100))
        let c2 ← need (DIGIT_TO_COLOR (sig / 10 % 10))
          (REncodeErr.digitKeyError (sig / 10 % 10))
        let c3 ← need (DIGIT_TO_COLOR (sig % 10))
          (REncodeErr.digitKeyError (sig % 10))
        let mc ← need (MULTIPLIER_TO_COLOR m) (REncodeErr.multKeyError m)
        Except.ok [c1, c2, c3, mc, tol_color])
    else none
  else none

/-- First loop of `_encode_5band`: every multiplier in ascending order
(skipping non-positive ones), round-trip bound 0.001. -/
def encode5FirstPass (ohms : ℚ) (tol_color : String) :
    Option (Except REncodeErr (List String)) :=
  MULTIPLIER_VALUES_ASC.findSome?
    (fun m => if m ≤ 0 then none else try5At ohms tol_color 0.001 m)

/-- Second loop of `_encode_5band`: gold then silver, bound 0.01. -/
def encode5SecondPass (ohms : ℚ) (tol_color : String) :
    Option (Except REncodeErr (List String)) :=
  [(1:ℚ)/10, 1/100].findSome? (try5At ohms tol_color 0.01)

/-- `_encode_5band`. -/
def encode_5band (ohms : ℚ) (tol_color : String) :
    Except REncodeErr (List String) :=
  if ohms ≤ 0 then Except.error REncodeErr.nonPositiveOhms
  else
    match encode5FirstPass ohms tol_color with
    | some r => r
    | none =>
      match encode5SecondPass ohms tol_color with
      | some r => r
      | none => Except.error (REncodeErr.unrepresentable5Band ohms)

/-- The body of one iteration of the 4-band search loops. -/
def try4At (ohms : ℚ) (tol_color : String) (bound : ℚ) (m : ℚ) :
    Option (Except REncodeErr (List String)) :=
  let candidate := ohms / m
  if 9.5 ≤ candidate ∧ candidate ≤ 99.5 then
    let sig := pyRound candidate
    if |(sig : ℚ) * m - ohms| / max ohms 1e-12 < bound then
      some (do
        let c1 ← need (DIGIT_TO_COLOR (sig / 10))
          (REncodeErr.digitKeyError (sig / 10))
        let c2 ← need (DIGIT_TO_COLOR (sig % 10))
          (REncodeErr.digitKeyError (sig % 10))
        let mc ← need (MULTIPLIER_TO_COLOR m) (REncodeErr.multKeyError m)
        Except.ok [c1, c2, mc, tol_color])
    else none
  else none

/-- First loop of `_encode_4band`. -/
def encode4FirstPass (ohms : ℚ) (tol_color : String) :
    Option (Except REncodeErr (List String)) :=
  MULTIPLIER_VALUES_ASC.findSome?
    (fun m => if m ≤ 0 then none else try4At ohms tol_color 0.001 m)

/-- Second loop of `_encode_4band`. -/
def encode4SecondPass (ohms : ℚ) (tol_color : String) :
    Option (Except REncodeErr (List String)) :=
  [(1:ℚ)/10, 1/100].findSome? (try4At ohms tol_color 0.01)

/-- `_encode_4band`: returns `none` (no 4-band form) when neither loop
finds a representation. -/
def encode_4band (ohms : ℚ) (tol_color : String) :
    Except REncodeErr (Option (List String)) :=
  match encode4FirstPass ohms tol_color with
  | some r => r.map some
  | none =>
    match encode4SecondPass ohms tol_color with
    | some r => r.map some
    | none => Except.ok none

/-- `encode_resistor`. -/
def encode_resistor (ohms : ℚ) (tolerance_percent : ℚ) :
    Except REncodeErr EncodedResistor :=
  match TOLERANCE_TO_COLOR tolerance_percent with
  | none => Except.error (REncodeErr.unsupportedTolerance tolerance_percent)
  | some tol_color => do
      let bands_5 ← encode_5band ohms tol_color
      let bands_4 ← encode_4band ohms tol_color
      Except.ok ⟨ohms, bands_5, bands_4, tol_color, tolerance_percent⟩

/-! ## Capacitor codec (`capacitor_decoder.py`) -/

/-- `CapType` enum. -/
inductive CapType
  | film_box
  | ceramic
  | electrolytic
  | tantalum
  | unknown
deriving DecidableEq

/-- `TOLERANCE_CODES` dict, keyed by the (upper-case) tolerance letter. -/
def TOLERANCE_CODES (c : Char) : Option ℚ :=
  if c = 'B' then some 0.1
  else if c = 'C' then some 0.25
  else if c = 'D' then some 0.5
  else if c = 'F' then some 1.0
  else if c = 'G' then some 2.0
  else if c = 'J' then some 5.0
  else if c = 'K' then some 10.0
  else if c = 'M' then some 20.0
  else if c = 'Z' then some (-20.0)
  else none

/-- `TOLERANCE_TO_LETTER` dict. -/
def TOLERANCE_TO_LETTER (t : ℚ) : Option Char :=
  if t = 1 then some 'F'
  else if t = 2 then some 'G'
  else if t = 5 then some 'J'
  else if t = 10 then some 'K'
  else if t = 20 then some 'M'
  else none

/-- `UNIT_TO_PF` dict: unit string (lower case) → multiplier to picofarads. -/
def UNIT_TO_PF : String → Option ℚ
  | "pf" => some 1
  | "p" => some 1
  | "nf" => some 1000
  | "n" => some 1000
  | "uf" => some 1000000
  | "u" => some 1000000
  | "µf" => some 1000000
  | "µ" => some 1000000
  | "mf" => some 1000000
  | _ => none

/-- The `unit_lower in UNIT_TO_PF ... elif unit_lower + "f" in UNIT_TO_PF`
lookup shared by the three unit-bearing parsers. -/
def unitMultiplier (unit_lower : String) : Option ℚ :=
  match UNIT_TO_PF unit_lower with
  | some m => some m
  | none => UNIT_TO_PF (unit_lower ++ ("f"))

/-- `CapUnit` dataclass: the canonical picofarad value with its derived
nanofarad and microfarad views. -/
structure CapUnit where
  pf : ℚ
  nf : ℚ
  uf : ℚ
deriving DecidableEq

/-- `pf_to_units`. -/
def pf_to_units (pf : ℚ) : CapUnit := ⟨pf, pf / 1000, pf / 1000000⟩

/-- `DecodedCap` dataclass. -/
structure DecodedCap where
  capacitance : CapUnit
  tolerance_percent : Option ℚ
  tolerance_letter : Option String
  voltage_max : Option ℕ
  cap_type : CapType
  source_code : String
  confidence : ℚ
deriving DecidableEq

/-- `_guess_type_from_pf`: heuristic type classification. -/
def guess_type_from_pf (pf : ℚ) (voltage : Option ℕ) : CapType :=
  let uf := pf / 1000000
  if 1 ≤ uf then CapType.electrolytic
  else if pf < 1000 then CapType.ceramic
  else
    -- Python `if voltage and voltage >= 50` (None and 0 are falsy)
    let voltageHigh : Bool :=
      match voltage with
      | some v => decide (v ≠ 0) && decide (50 ≤ v)
      | none => false
    if voltageHigh then CapType.film_box
    else if 1000 ≤ pf ∧ pf ≤ 1000000 then CapType.film_box
    else CapType.unknown

/-! ### Marking parsers

Each anchored regex of the source is embedded as a parser over `List Char`.
Greedy quantifiers over digit/space runs are maximal-munch here; on these
grammars maximal munch agrees with the backtracking semantics of the
originals because no shorter match of a run can succeed where the maximal
one fails. -/

/-- Is this a digit character? (regex `\d`, ASCII). -/
def isDigitChar (c : Char) : Bool := c.isDigit

/-- The numeric value of a digit character. -/
def digitVal (c : Char) : ℕ := c.toNat - 48

/-- `int` of a digit string. -/
def digitsToNat (ds : List Char) : ℕ :=
  ds.foldl (fun acc c => acc * 10 + digitVal c) 0

/-- Skip regex `\s*`. -/
def skipSpaces (cs : List Char) : List Char := cs.dropWhile pyIsSpace

/-- Regex `[A-MZ]` under `IGNORECASE`. -/
def isTolLetterChar (c : Char) : Bool :=
  let u := c.toUpper
  ('A' ≤ u && u ≤ 'M') || u = 'Z'

/-- Regex `[pnuµ]` under `IGNORECASE` (the upper-case forms of `µ` outside
ASCII are not modelled; no claim involves them). -/
def isUnitChar (c : Char) : Bool :=
  let l := c.toLower
  l = 'p' || l = 'n' || l = 'u' || c = 'µ'

/-- Parse regex `(\d+\.?\d*)` at the head, returning the Python `float`
value (exact) and the rest. -/
def parseFloat (cs : List Char) : Option (ℚ × List Char) :=
  let p := cs.span isDigitChar
  if p.1.isEmpty then none
  else
    match p.2 with
    | '.' :: r2 =>
        let q := r2.span isDigitChar
        some ((digitsToNat p.1 : ℚ) + (digitsToNat q.1 : ℚ) / 10 ^ q.1.length,
          q.2)
    | _ => some ((digitsToNat p.1 : ℚ), p.2)

/-- Parse regex `([A-MZ])?` at the head. -/
def parseTolLetter (cs : List Char) : Option Char × List Char :=
  match cs with
  | c :: rest => if isTolLetterChar c then (some c, rest) else (none, cs)
  | [] => (none, cs)

/-- Parse regex `(\d{2,4})?$`: the remaining input must be a digit run of
length 0 or 2–4. Returns the voltage group. -/
def parseVoltTail (cs : List Char) : Option (Option ℕ) :=
  if cs.isEmpty then some none
  else if cs.all isDigitChar && decide (2 ≤ cs.length) && decide (cs.length ≤ 4)
  then some (some (digitsToNat cs))
  else none

/-- Parse regex `\s*([A-MZ])?\s*(\d{2,4})?$` (the common tail of the EIA-free
grammars). -/
def parseTolVoltTail (cs : List Char) : Option (Option Char × Option ℕ) :=
  let cs1 := skipSpaces cs
  let p := parseTolLetter cs1
  let cs2 := skipSpaces p.2
  (parseVoltTail cs2).map (fun v => (p.1, v))

/-- Parse regex `f?` right after a unit letter `u`, returning the unit
group's characters and the rest. -/
def parseUnitF (u : Char) (cs : List Char) : List Char × List Char :=
  match cs with
  | f :: rest => if f = 'f' || f = 'F' then ([u, f], rest) else ([u], cs)
  | [] => ([u], cs)

/-- `_try_eia`: pattern 1, `^(\d{2})(\d)(?:([A-MZ]))?(?:(\d{2,4}))?$`. -/
def try_eia (cs : List Char) (orig : String) : Option DecodedCap :=
  match cs with
  | a :: b :: c :: rest =>
    if isDigitChar a && isDigitChar b && isDigitChar c then
      let p := parseTolLetter rest
      match parseVoltTail p.2 with
      | none => none
      | some voltage =>
        let significand : ℕ := digitVal a * 10 + digitVal b
        let multiplier : ℕ := digitVal c
        let pf : ℚ :=
          if multiplier = 8 then (significand : ℚ) * 0.01
          else if multiplier = 9 then (significand : ℚ) * 0.1
          else (significand : ℚ) * 10 ^ multiplier
        let tol_pct := p.1.bind (fun t => TOLERANCE_CODES t.toUpper)
        let tol_letter : Option String :=
          if tol_pct.isSome then p.1.map (fun t => String.mk [t.toUpper])
          else none
        some ⟨pf_to_units pf, tol_pct, tol_letter, voltage,
          guess_type_from_pf pf voltage, orig, 1⟩
    else none
  | _ => none

/-- `_try_alpha`: pattern 2, `^(\d+\.?\d*)\s*([pnuµ]f?)\s*([A-MZ])?\s*(\d{2,4})?$`. -/
def try_alpha (cs : List Char) (orig : String) : Option DecodedCap :=
  match parseFloat cs with
  | none => none
  | some (value, r1) =>
    match skipSpaces r1 with
    | u :: r3 =>
      if isUnitChar u then
        let p := parseUnitF u r3
        match parseTolVoltTail p.2 with
        | none => none
        | some (tol, voltage) =>
          let unit_lower := String.mk (p.1.map Char.toLower)
          match unitMultiplier unit_lower with
          | none => none
          | some mult =>
            let pf := value * mult
            let tol_pct := tol.bind (fun t => TOLERANCE_CODES t.toUpper)
            let tol_letter : Option String :=
              if tol_pct.isSome then tol.map (fun t => String.mk [t.toUpper])
              else none
            some ⟨pf_to_units pf, tol_pct, tol_letter, voltage,
              guess_type_from_pf pf voltage, orig, 1⟩
      else none
    | [] => none

/-- `_try_rdecimal`: pattern 2b, `^(\d+)([pnuµ])(\d+)\s*([A-MZ])?\s*(\d{2,4})?$`. -/
def try_rdecimal (cs : List Char) (orig : String) : Option DecodedCap :=
  let ip := cs.span isDigitChar
  if ip.1.isEmpty then none
  else
    match ip.2 with
    | u :: r2 =>
      if isUnitChar u then
        let fp := r2.span isDigitChar
        if fp.1.isEmpty then none
        else
          match parseTolVoltTail fp.2 with
          | none => none
          | some (tol, voltage) =>
            -- float(f"{int_part}.{frac_part}")
            let value : ℚ :=
              (digitsToNat ip.1 : ℚ) + (digitsToNat fp.1 : ℚ) / 10 ^ fp.1.length
            let unit_lower := String.mk [u.toLower]
            match unitMultiplier unit_lower with
            | none => none
            | some mult =>
              let pf := value * mult
              let tol_pct := tol.bind (fun t => TOLERANCE_CODES t.toUpper)
              let tol_letter : Option String :=
                if tol_pct.isSome then tol.map (fun t => String.mk [t.toUpper])
                else none
              some ⟨pf_to_units pf, tol_pct, tol_letter, voltage,
                guess_type_from_pf pf voltage, orig, 1⟩
      else none
    | [] => none

/-- `_try_electrolytic`: pattern 3, `^(\d+\.?\d*)\s*([uµ]f?)\s*[/,]?\s*(\d{1,4})\s*[vV]$`. -/
def try_electrolytic (cs : List Char) (orig : String) : Option DecodedCap :=
  match parseFloat cs with
  | none => none
  | some (value, r1) =>
    match skipSpaces r1 with
    | u :: r3 =>
      if u.toLower = 'u' || u = 'µ' then
        let p := parseUnitF u r3
        let r5 := skipSpaces p.2
        let r6 :=
          match r5 with
          | s :: rest => if s = '/' || s = ',' then rest else r5
          | [] => r5
        let vd := (skipSpaces r6).span isDigitChar
        if vd.1.isEmpty || decide (4 < vd.1.length) then none
        else
          match skipSpaces vd.2 with
          | [v] =>
            if v = 'v' || v = 'V' then
              let unit_lower := String.mk (p.1.map Char.toLower)
              match unitMultiplier unit_lower with
              | none => none
              | some mult =>
                -- Electrolytics are typically 20% tolerance
                some ⟨pf_to_units (value * mult), some 20, some ("M"),
                  some (digitsToNat vd.1), CapType.electrolytic, orig, 0.95⟩
            else none
          | _ => none
      else none
    | [] => none

/-- A `ValueError` raised by `decode_capacitor`. -/
inductive CapDecodeErr
  | emptyMarking
  | unparsable (marking : String)
deriving DecidableEq

/-- `decode_capacitor`: the four grammars in strict precedence order,
first match wins. -/
def decode_capacitor (marking : String) : Except CapDecodeErr DecodedCap :=
  let cleaned := pyStrip marking.data
  if cleaned.isEmpty then Except.error CapDecodeErr.emptyMarking
  else
    let cstr := String.mk cleaned
    match try_electrolytic cleaned cstr with
    | some r => Except.ok r
    | none =>
      match try_rdecimal cleaned cstr with
      | some r => Except.ok r
      | none =>
        match try_alpha cleaned cstr with
        | some r => Except.ok r
        | none =>
          match try_eia cleaned cstr with
          | some r => Except.ok r
          | none => Except.error (CapDecodeErr.unparsable cstr)

/-! ## Capacitor encoder -/

/-- A `ValueError` raised by `encode_capacitor` / `_encode_eia`. -/
inductive CapEncodeErr
  | wrongValueCount
  | nonPositiveCapacitance
  | unsupportedTolerance (t : ℚ)
  | unrepresentableEIA (pf : ℚ)
deriving DecidableEq

/-- `EncodedCap` dataclass. -/
structure EncodedCap where
  capacitance : CapUnit
  eia_code : String
  alpha_code : String
  full_film_code : String
  full_alpha_code : String
  tolerance_letter : String
  voltage : Option ℕ
deriving DecidableEq

/-- One iteration of the `_encode_eia` multiplier search. -/
def eiaTryMult (pf : ℚ) (mult : ℕ) : Option String :=
  let divisor : ℚ := 10 ^ mult
  let sig := pf / divisor
  if 9.95 ≤ sig ∧ sig ≤ 99.5 then
    let sig_int := pyRound sig
    -- Verify round-trip
    if |(sig_int : ℚ) * divisor - pf| / pf < 0.001 then
      some (natToStr sig_int.toNat ++ natToStr mult)
    else none
  else none

/-- `_encode_eia`. (`sig_int` is printed via `toNat`; along every reachable
path it is nonnegative, since `pf > 0`.) -/
def encode_eia (pf : ℚ) : Except CapEncodeErr String :=
  if pf ≤ 0 then Except.error CapEncodeErr.nonPositiveCapacitance
  else if pf < 10 then
    let sig := pyRound pf
    if 10 ≤ sig then Except.ok (natToStr sig.toNat ++ ("0"))
    else if 0 < sig then Except.ok (("0") ++ natToStr sig.toNat ++ ("0"))
    else Except.error (CapEncodeErr.unrepresentableEIA pf)
  else
    match (List.range 10).findSome? (eiaTryMult pf) with
    | some code => Except.ok code
    | none => Except.error (CapEncodeErr.unrepresentableEIA pf)

/-- Strip trailing `'0'` characters (the `%g` format never keeps them). -/
def stripTrailingZeros (ds : List Char) : List Char :=
  (ds.reverse.dropWhile (fun c => c = '0')).reverse

/-- Two-digit zero-padded exponent, as printed by `%g` scientific notation. -/
def pad2 (n : ℕ) : List Char :=
  if n < 10 then '0' :: natToStrAux (n + 1) n [] else natToStrAux (n + 1) n []

/-- Python `f"{frac:.3g}"` for `frac ∈ (0,1)`: round to 3 significant
digits; fixed notation when the decimal exponent is ≥ -4, otherwise
scientific. (Ties are rounded half-to-even on the decimal value; the binary
double may round the knife-edge cases differently.) -/
def g3Format (frac : ℚ) : List Char :=
  let e : ℤ := qFloorLog10 frac
  let n : ℤ := pyRound (frac * 10 ^ (2 - e))
  let ne : ℤ × ℤ := if n = 1000 then (100, e + 1) else (n, e)
  let digits := stripTrailingZeros (natToStrAux (ne.1.toNat + 1) ne.1.toNat [])
  if -4 ≤ ne.2 then
    '0' :: '.' :: (List.replicate (-ne.2 - 1).toNat '0' ++ digits)
  else
    (match digits with
     | d :: rest => d :: (if rest.isEmpty then [] else '.' :: rest)
     | [] => []) ++ ('e' :: '-' :: pad2 (-ne.2).toNat)

/-- Python `str.lstrip("0")`. -/
def lstripZeros (ds : List Char) : List Char := ds.dropWhile (fun c => c = '0')

/-- Python `str.lstrip(".")`. -/
def lstripDot (ds : List Char) : List Char := ds.dropWhile (fun c => c = '.')

/-- `_alpha_fmt`: format a value with unit letter in R-style decimal
notation. (`int(value)` is `⌊value⌋`: every call site passes a positive
value.) -/
def alpha_fmt (value : ℚ) (unit : String) : String :=
  if value.den = 1 then natToStr value.num.toNat ++ unit
  else
    let int_part : ℤ := ⌊value⌋
    let frac_part := value - (int_part : ℚ)
    let frac_str := String.mk (lstripDot (lstripZeros (g3Format frac_part)))
    if 0 < int_part then natToStr int_part.toNat ++ unit ++ frac_str
    else ("0") ++ unit ++ frac_str

/-- `_encode_alpha`: pick the most natural unit. -/
def encode_alpha (pf : ℚ) : String :=
  let uf := pf / 1000000
  let nf := pf / 1000
  if 0.1 ≤ uf then alpha_fmt uf ("u")
  else if 0.1 ≤ nf then alpha_fmt nf ("n")
  else alpha_fmt pf ("p")

/-- The unit-argument resolution of `encode_capacitor` (valid when exactly
one argument is supplied; the all-`none` case is unreachable then). -/
def resolve_pf (pf nf uf : Option ℚ) : ℚ :=
  match pf, nf, uf with
  | some v, _, _ => v
  | none, some v, _ => v * 1000
  | none, none, some v => v * 1000000
  | none, none, none => 0

/-- `encode_capacitor`. -/
def encode_capacitor (pf nf uf : Option ℚ) (tolerance_percent : ℚ)
    (voltage : Option ℕ) : Except CapEncodeErr EncodedCap :=
  let provided := [pf, nf, uf].countP Option.isSome
  if provided ≠ 1 then Except.error CapEncodeErr.wrongValueCount
  else
    let pf_val := resolve_pf pf nf uf
    if pf_val ≤ 0 then Except.error CapEncodeErr.nonPositiveCapacitance
    else
      match TOLERANCE_TO_LETTER tolerance_percent with
      | none =>
        Except.error (CapEncodeErr.unsupportedTolerance tolerance_percent)
      | some tl => do
        let eia_code ← encode_eia pf_val
        let alpha_code := encode_alpha pf_val
        let tolStr := String.mk [tl]
        -- str(voltage) if voltage else "" (None and 0 are falsy)
        let voltage_str :=
          match voltage with
          | some v => if v = 0 then ("") else natToStr v
          | none => ("")
        Except.ok ⟨pf_to_units pf_val, eia_code, alpha_code,
          eia_code ++ tolStr ++ voltage_str, alpha_code ++ tolStr ++ voltage_str,
          tolStr, voltage⟩

/-! ## Foundation lemmas: rounding and decade normalisation -/

theorem pyRound_intCast (n : ℤ) : pyRound (n : ℚ) = n := by
  unfold pyRound
  norm_num

theorem pyRound_natCast (n : ℕ) : pyRound (n : ℚ) = n := by
  have := pyRound_intCast (n : ℤ)
  push_cast at this ⊢
  exact this

theorem natLog10Fuel_succ (f n : ℕ) :
    natLog10Fuel (f + 1) n = if n < 10 then 0 else natLog10Fuel f (n / 10) + 1 :=
  rfl

theorem natLog10Fuel_bounds : ∀ fuel n, 1 ≤ n → n ≤ fuel →
    10 ^ natLog10Fuel fuel n ≤ n ∧ n < 10 ^ (natLog10Fuel fuel n + 1) := by
  intro fuel
  induction fuel with
  | zero => intro n h1 h2; omega
  | succ f ih =>
    intro n h1 h2
    rw [natLog10Fuel_succ]
    by_cases h : n < 10
    · simp only [if_pos h]
      exact ⟨by simpa using h1, by simpa using h⟩
    · simp only [if_neg h]
      obtain ⟨l, u⟩ := ih (n / 10) (by omega) (by omega)
      rw [pow_succ] at u ⊢
      rw [pow_succ]
      constructor <;> omega

theorem leastPow10_succ (f : ℕ) (q : ℚ) (k : ℕ) :
    leastPow10 (f + 1) q k = if 1 ≤ q * 10 ^ k then k else leastPow10 f q (k + 1) :=
  rfl

theorem leastPow10_spec : ∀ fuel (q : ℚ) k, 1 ≤ q * 10 ^ (k + fuel) →
    1 ≤ q * 10 ^ leastPow10 fuel q k ∧
      ∀ j, k ≤ j → j < leastPow10 fuel q k → q * 10 ^ j < 1 := by
  intro fuel
  induction fuel with
  | zero =>
    intro q k h
    rw [Nat.add_zero] at h
    exact ⟨by simpa [leastPow10] using h,
      fun j h1 h2 => by simp [leastPow10] at h2; omega⟩
  | succ f ih =>
    intro q k h
    rw [leastPow10_succ]
    by_cases hk : 1 ≤ q * 10 ^ k
    · rw [if_pos hk]
      exact ⟨hk, fun j h1 h2 => by omega⟩
    · have h' : 1 ≤ q * 10 ^ (k + 1 + f) := by
        have he : k + 1 + f = k + (f + 1) := by omega
        rw [he]; exact h
      obtain ⟨l, u⟩ := ih q (k + 1) h'
      rw [if_neg hk]
      refine ⟨l, fun j h1 h2 => ?_⟩
      rcases Nat.eq_or_lt_of_le h1 with rfl | h1'
      · exact lt_of_not_le hk
      · exact u j h1' h2

theorem qFloorLog10_spec (q : ℚ) (hq : 0 < q) :
    (10:ℚ) ^ qFloorLog10 q ≤ q ∧ q < 10 ^ (qFloorLog10 q + 1) := by
  unfold qFloorLog10
  split_ifs with h1
  · -- 1 ≤ q
    set n := ⌊q⌋.toNat with hn
    have hfl : 1 ≤ ⌊q⌋ := by exact_mod_cast Int.le_floor.mpr (by exact_mod_cast h1)
    have hn1 : 1 ≤ n := by omega
    obtain ⟨l, u⟩ := natLog10Fuel_bounds n n hn1 le_rfl
    have hcastfl : ((n : ℤ) : ℚ) ≤ q := by
      have : (⌊q⌋ : ℚ) ≤ q := Int.floor_le q
      have hnn : (n : ℤ) = ⌊q⌋ := Int.toNat_of_nonneg (by omega)
      rw [hnn]; exact this
    have hq_lt : q < ((n : ℤ) : ℚ) + 1 := by
      have : q < (⌊q⌋ : ℚ) + 1 := Int.lt_floor_add_one q
      have hnn : (n : ℤ) = ⌊q⌋ := Int.toNat_of_nonneg (by omega)
      rw [hnn]; exact this
    constructor
    · rw [zpow_natCast]
      calc (10:ℚ) ^ natLog10Fuel n n ≤ (n : ℚ) := by exact_mod_cast l
        _ ≤ q := by exact_mod_cast hcastfl
    · have : ((natLog10Fuel n n : ℤ)) + 1 = ((natLog10Fuel n n + 1 : ℕ) : ℤ) := by
        push_cast; ring
      rw [this, zpow_natCast]
      calc q < ((n : ℤ) : ℚ) + 1 := hq_lt
        _ ≤ (10:ℚ) ^ (natLog10Fuel n n + 1) := by
            push_cast
            have : (n : ℚ) + 1 ≤ ((10 ^ (natLog10Fuel n n + 1) : ℕ) : ℚ) := by
              exact_mod_cast Nat.succ_le_of_lt u
            push_cast at this
            linarith
  · -- q < 1
    push_neg at h1
    have hfuel : 1 ≤ q * 10 ^ (0 + q.den) := by
      rw [Nat.zero_add]
      have hnum : 1 ≤ q.num := Rat.num_pos.mpr hq
      have hden : 0 < (q.den : ℚ) := by exact_mod_cast q.pos
      have hq_ge : 1 / (q.den : ℚ) ≤ q := by
        rw [div_le_iff₀ hden]
        have h2 : q * (q.den : ℚ) = (q.num : ℚ) := by
          rw [mul_comm]
          exact_mod_cast Rat.den_mul_eq_num q
        rw [h2]; exact_mod_cast hnum
      have hpow : (q.den : ℚ) ≤ 10 ^ q.den := by
        have := Nat.lt_pow_self (by norm_num : 1 < 10) q.den
        exact_mod_cast this.le
      calc (1:ℚ) = (1 / (q.den : ℚ)) * (q.den : ℚ) := by field_simp
        _ ≤ q * 10 ^ q.den := by
            apply mul_le_mul hq_ge hpow (le_of_lt hden)
            linarith
    obtain ⟨l, u⟩ := leastPow10_spec q.den q 0 hfuel
    set r := leastPow10 q.den q 0 with hr
    have hr1 : 1 ≤ r := by
      by_contra h
      push_neg at h
      interval_cases r
      · rw [pow_zero, mul_one] at l; linarith
    have hp : (0:ℚ) < 10 ^ r := by positivity
    constructor
    · rw [zpow_neg, zpow_natCast, inv_eq_one_div, div_le_iff₀ hp]
      linarith [l]
    · have he : (-(r:ℤ)) + 1 = -(((r - 1 : ℕ) : ℤ)) := by
        have : ((r - 1 : ℕ) : ℤ) = (r : ℤ) - 1 := by omega
        rw [this]; ring
      rw [he, zpow_neg, zpow_natCast]
      have hlt := u (r - 1) (by omega) (by omega)
      have hp' : (0:ℚ) < 10 ^ (r - 1) := by positivity
      rw [inv_eq_one_div, lt_div_iff₀ hp']
      linarith

theorem floorLog10_unique {q : ℚ} {a b : ℤ} (ha1 : (10:ℚ) ^ a ≤ q)
    (ha2 : q < 10 ^ (a + 1)) (hb1 : (10:ℚ) ^ b ≤ q) (hb2 : q < 10 ^ (b + 1)) :
    a = b := by
  have h1 : (10:ℚ) ^ a < 10 ^ (b + 1) := lt_of_le_of_lt ha1 hb2
  have h2 : (10:ℚ) ^ b < 10 ^ (a + 1) := lt_of_le_of_lt hb1 ha2
  have h1' := (zpow_lt_zpow_iff_right₀ (by norm_num : (1:ℚ) < 10)).mp h1
  have h2' := (zpow_lt_zpow_iff_right₀ (by norm_num : (1:ℚ) < 10)).mp h2
  omega

theorem qFloorLog10_mul10 (q : ℚ) (hq : 0 < q) :
    qFloorLog10 (q * 10) = qFloorLog10 q + 1 := by
  obtain ⟨l, u⟩ := qFloorLog10_spec q hq
  obtain ⟨l', u'⟩ := qFloorLog10_spec (q * 10) (by positivity)
  have hl : (10:ℚ) ^ (qFloorLog10 q + 1) ≤ q * 10 := by
    rw [zpow_add₀ (by norm_num : (10:ℚ) ≠ 0), zpow_one]
    nlinarith
  have hu : q * 10 < 10 ^ (qFloorLog10 q + 1 + 1) := by
    rw [zpow_add₀ (by norm_num : (10:ℚ) ≠ 0) (qFloorLog10 q + 1) 1, zpow_one]
    nlinarith [u]
  exact floorLog10_unique l' u' hl hu

/-! ## List and lookup-table lemmas -/

theorem findSome?_of_take {α β : Type} (f : α → Option β) :
    ∀ (l : List α) (i : ℕ) (hi : i < l.length) (b : β),
      (∀ x ∈ l.take i, f x = none) → f (l.get ⟨i, hi⟩) = some b →
      l.findSome? f = some b := by
  intro l
  induction l with
  | nil => intro i hi; simp at hi
  | cons a t ih =>
    intro i hi b hpre hsome
    cases i with
    | zero =>
      simp only [List.get] at hsome
      rw [List.findSome?_cons, hsome]
    | succ n =>
      have ha : f a = none := hpre a (by simp)
      rw [List.findSome?_cons, ha]
      exact ih n (by simpa using hi) b
        (fun x hx => hpre x (by simpa using List.mem_cons_of_mem a hx)) hsome

theorem need_some {α ε : Type} (a : α) (e : ε) : need (some a) e = Except.ok a := rfl

theorem need_none {α ε : Type} (e : ε) : need (none : Option α) e = Except.error e := rfl

theorem except_bind_ok {α β ε : Type} (a : α) (f : α → Except ε β) :
    (Except.ok a >>= f) = f a := rfl

theorem except_bind_error {α β ε : Type} (e : ε) (f : α → Except ε β) :
    ((Except.error e : Except ε α) >>= f) = Except.error e := rfl

theorem digit_color_none (z : ℤ) (h : 10 ≤ z) : DIGIT_TO_COLOR z = none := by
  unfold DIGIT_TO_COLOR
  split_ifs <;> first | rfl | (exfalso; omega)

theorem mult_colors_pos (s : String) (m : ℚ) (h : MULTIPLIER_COLORS s = some m) :
    0 < m := by
  unfold MULTIPLIER_COLORS at h
  split at h <;> (try cases h) <;> norm_num

/-! ## The nearest-E96 scan is a minimiser -/

theorem nearest_fold_spec (ohms decade : ℚ) :
    ∀ (l : List ℚ) (bv bd : ℚ), bd = |bv - ohms| →
      ∃ w d, l.foldl (nearestStep ohms decade) (some (bv, bd)) = some (w, d) ∧
        d = |w - ohms| ∧ (w = bv ∨ ∃ val ∈ l, w = val * decade) ∧ d ≤ bd ∧
        ∀ val ∈ l, d ≤ |val * decade - ohms| := by
  intro l
  induction l with
  | nil =>
    intro bv bd hbd
    exact ⟨bv, bd, rfl, hbd, Or.inl rfl, le_rfl, by simp⟩
  | cons v t ih =>
    intro bv bd hbd
    by_cases hc : |v * decade - ohms| < bd
    · obtain ⟨w, d, hfold, hd, hw, hdb, hall⟩ :=
        ih (v * decade) |v * decade - ohms| rfl
      refine ⟨w, d, ?_, hd, ?_, ?_, ?_⟩
      · rw [List.foldl_cons]
        show t.foldl _ (nearestStep ohms decade (some (bv, bd)) v) = _
        simpa [nearestStep, hc] using hfold
      · rcases hw with rfl | ⟨val, hval, rfl⟩
        · exact Or.inr ⟨v, by simp, rfl⟩
        · exact Or.inr ⟨val, by simp [hval], rfl⟩
      · exact le_trans hdb (le_of_lt hc)
      · intro val hval
        rcases List.mem_cons.mp hval with rfl | hval'
        · exact hdb
        · exact hall val hval'
    · obtain ⟨w, d, hfold, hd, hw, hdb, hall⟩ := ih bv bd hbd
      refine ⟨w, d, ?_, hd, ?_, hdb, ?_⟩
      · rw [List.foldl_cons]
        show t.foldl _ (nearestStep ohms decade (some (bv, bd)) v) = _
        simpa [nearestStep, hc] using hfold
      · rcases hw with rfl | ⟨val, hval, rfl⟩
        · exact Or.inl rfl
        · exact Or.inr ⟨val, by simp [hval], rfl⟩
      · intro val hval
        rcases List.mem_cons.mp hval with rfl | hval'
        · exact le_trans hdb (not_lt.mp hc)
        · exact hall val hval'

theorem nearestE96_spec (ohms decade : ℚ) :
    ∃ w, nearestE96 ohms decade = some w ∧
      (∃ val ∈ E96_VALUES, w = val * decade) ∧
      ∀ val ∈ E96_VALUES, |w - ohms| ≤ |val * decade - ohms| := by
  obtain ⟨v, t, hvt⟩ := List.exists_cons_of_ne_nil
    (show E96_VALUES ≠ [] by decide)
  have hstep : (v :: t).foldl (nearestStep ohms decade) none =
      t.foldl (nearestStep ohms decade) (some (v * decade, |v * decade - ohms|)) := by
    rw [List.foldl_cons]; rfl
  obtain ⟨w, d, hfold, hd, hw, _, hall⟩ :=
    nearest_fold_spec ohms decade t (v * decade) |v * decade - ohms| rfl
  refine ⟨w, ?_, ?_, ?_⟩
  · unfold nearestE96
    rw [hvt, hstep, hfold]
    rfl
  · rcases hw with rfl | ⟨val, hval, rfl⟩
    · exact ⟨v, by rw [hvt]; simp, rfl⟩
    · exact ⟨val, by rw [hvt]; simp [hval], rfl⟩
  · intro val hval
    rw [hvt] at hval
    rcases List.mem_cons.mp hval with rfl | hval'
    · rw [← hd]
      obtain ⟨w', d', hfold', hd', hw', hdb', hall'⟩ :=
        nearest_fold_spec ohms decade t (val * decade) |val * decade - ohms| rfl
      rw [hfold] at hfold'
      cases hfold'
      exact hdb'
    · rw [← hd]
      exact hall val hval'

/-! ## The series matcher: characterisation -/

theorem find_e_series_neg (ohms : ℚ) (h : ohms ≤ 0) :
    find_e_series ohms = (none, none) := by
  unfold find_e_series
  rw [if_pos h]

theorem find_e_series_pos (ohms : ℚ) (h : 0 < ohms) :
    find_e_series ohms =
      match NAMED_E_SERIES.findSome? (fun p =>
          if seriesHit (pyRound2 (ohms / 10 ^ qFloorLog10 ohms)) p.2
          then some p.1 else none) with
      | some name => (some name, none)
      | none => (none, nearestE96 ohms (10 ^ qFloorLog10 ohms)) := by
  unfold find_e_series
  rw [if_neg (not_le.mpr h)]

/-- C8 helper: the significand is invariant under multiplication by 10. -/
theorem significand_mul10 (v : ℚ) (hv : 0 < v) :
    v * 10 / 10 ^ qFloorLog10 (v * 10) = v / 10 ^ qFloorLog10 v := by
  rw [qFloorLog10_mul10 v hv, zpow_add₀ (by norm_num : (10:ℚ) ≠ 0), zpow_one]
  have h1 : (10:ℚ) ^ qFloorLog10 v ≠ 0 := by positivity
  field_simp
  ring

/-- C8: for every strictly positive magnitude `v`, `find_e_series v` and
`find_e_series (v*10)` yield the same series name (or both none): series
membership depends only on the significand, not the decade. -/
theorem claim_C8_decade_invariance (v : ℚ) (hv : 0 < v) :
    (find_e_series v).1 = (find_e_series (v * 10)).1 := by
  rw [find_e_series_pos v hv, find_e_series_pos (v * 10) (by positivity)]
  rw [significand_mul10 v hv]
  rcases hm : NAMED_E_SERIES.findSome? (fun p =>
      if seriesHit (pyRound2 (v / 10 ^ qFloorLog10 v)) p.2
      then some p.1 else none) with _ | name <;> simp [hm]

/-- C8 witness at `v = 4700`. -/
theorem claim_C8_witness :
    (0:ℚ) < 4700 ∧ (find_e_series 4700).1 = (find_e_series (4700 * 10)).1 :=
  ⟨by norm_num, claim_C8_decade_invariance 4700 (by norm_num)⟩

/-- C3: for every strictly positive magnitude, `find_e_series` normalises to
a significand in `[1,10)`, rounds it to 2 decimals, tests membership against
E12, then E24, then E48, then E96 with absolute tolerance 0.005 and returns
the first matching series name with no nearest value; if no series matches
it returns no series name together with a closest E96 value in the
magnitude's decade; exactly one of the two components is populated. -/
theorem claim_C3_series_matcher (v : ℚ) (hv : 0 < v) :
    ∀ sigR, sigR = pyRound2 (v / 10 ^ qFloorLog10 v) →
    (1 ≤ v / 10 ^ qFloorLog10 v ∧ v / 10 ^ qFloorLog10 v < 10) ∧
    (((find_e_series v).1.isSome ∧ (find_e_series v).2 = none) ∨
      ((find_e_series v).1 = none ∧ (find_e_series v).2.isSome)) ∧
    ((find_e_series v).1 = some ("E12") ↔ seriesHit sigR E12_VALUES = true) ∧
    ((find_e_series v).1 = some ("E24") ↔
      (seriesHit sigR E12_VALUES = false ∧ seriesHit sigR E24_VALUES = true)) ∧
    ((find_e_series v).1 = some ("E48") ↔
      (seriesHit sigR E12_VALUES = false ∧ seriesHit sigR E24_VALUES = false ∧
        seriesHit sigR E48_VALUES = true)) ∧
    ((find_e_series v).1 = some ("E96") ↔
      (seriesHit sigR E12_VALUES = false ∧ seriesHit sigR E24_VALUES = false ∧
        seriesHit sigR E48_VALUES = false ∧ seriesHit sigR E96_VALUES = true)) ∧
    ((find_e_series v).1 = none →
      seriesHit sigR E12_VALUES = false ∧ seriesHit sigR E24_VALUES = false ∧
      seriesHit sigR E48_VALUES = false ∧ seriesHit sigR E96_VALUES = false ∧
      ∃ w, (find_e_series v).2 = some w ∧
        (∃ val ∈ E96_VALUES, w = val * 10 ^ qFloorLog10 v) ∧
        ∀ val ∈ E96_VALUES, |w - v| ≤ |val * 10 ^ qFloorLog10 v - v|) := by
  intro sigR hsig
  have hp : (0:ℚ) < 10 ^ qFloorLog10 v := by positivity
  obtain ⟨hb1, hb2⟩ := qFloorLog10_spec v hv
  have hsigb : 1 ≤ v / 10 ^ qFloorLog10 v ∧ v / 10 ^ qFloorLog10 v < 10 := by
    constructor
    · rw [le_div_iff₀ hp]; linarith
    · rw [div_lt_iff₀ hp]
      have he : (10:ℚ) ^ (qFloorLog10 v + 1) = 10 * 10 ^ qFloorLog10 v := by
        rw [zpow_add₀ (by norm_num : (10:ℚ) ≠ 0), zpow_one]; ring
      rw [he] at hb2
      linarith
  rw [find_e_series_pos v hv, ← hsig]
  by_cases h12 : seriesHit sigR E12_VALUES = true
  · refine ⟨hsigb, ?_, ?_, ?_, ?_, ?_, ?_⟩ <;>
      simp [NAMED_E_SERIES, List.findSome?_cons, h12]
  · rw [Bool.not_eq_true] at h12
    by_cases h24 : seriesHit sigR E24_VALUES = true
    · refine ⟨hsigb, ?_, ?_, ?_, ?_, ?_, ?_⟩ <;>
        simp [NAMED_E_SERIES, List.findSome?_cons, h12, h24]
    · rw [Bool.not_eq_true] at h24
      by_cases h48 : seriesHit sigR E48_VALUES = true
      · refine ⟨hsigb, ?_, ?_, ?_, ?_, ?_, ?_⟩ <;>
          simp [NAMED_E_SERIES, List.findSome?_cons, h12, h24, h48]
      · rw [Bool.not_eq_true] at h48
        by_cases h96 : seriesHit sigR E96_VALUES = true
        · refine ⟨hsigb, ?_, ?_, ?_, ?_, ?_, ?_⟩ <;>
            simp [NAMED_E_SERIES, List.findSome?_cons, h12, h24, h48, h96]
        · rw [Bool.not_eq_true] at h96
          obtain ⟨w, hw1, hw2, hw3⟩ := nearestE96_spec v (10 ^ qFloorLog10 v)
          refine ⟨hsigb, ?_, ?_, ?_, ?_, ?_, ?_⟩ <;>
            simp [NAMED_E_SERIES, List.findSome?_cons, h12, h24, h48, h96] <;>
            first
              | exact Option.isSome_iff_exists.mpr ⟨w, hw1⟩
              | exact ⟨w, hw1, hw2, hw3⟩

/-- C3 witness at `v = 47300` (significand 4.73, in no series; the
nearest E96 value is returned). -/
theorem claim_C3_witness :
    (1 ≤ (47300:ℚ) / 10 ^ qFloorLog10 47300 ∧ (47300:ℚ) / 10 ^ qFloorLog10 47300 < 10) ∧
    (((find_e_series 47300).1.isSome ∧ (find_e_series 47300).2 = none) ∨
      ((find_e_series 47300).1 = none ∧ (find_e_series 47300).2.isSome)) ∧
    ((find_e_series 47300).1 = some ("E12") ↔ seriesHit 4.73 E12_VALUES = true) ∧
    ((find_e_series 47300).1 = some ("E24") ↔
      (seriesHit 4.73 E12_VALUES = false ∧ seriesHit 4.73 E24_VALUES = true)) ∧
    ((find_e_series 47300).1 = some ("E48") ↔
      (seriesHit 4.73 E12_VALUES = false ∧ seriesHit 4.73 E24_VALUES = false ∧
        seriesHit 4.73 E48_VALUES = true)) ∧
    ((find_e_series 47300).1 = some ("E96") ↔
      (seriesHit 4.73 E12_VALUES = false ∧ seriesHit 4.73 E24_VALUES = false ∧
        seriesHit 4.73 E48_VALUES = false ∧ seriesHit 4.73 E96_VALUES = true)) ∧
    ((find_e_series 47300).1 = none →
      seriesHit 4.73 E12_VALUES = false ∧ seriesHit 4.73 E24_VALUES = false ∧
      seriesHit 4.73 E48_VALUES = false ∧ seriesHit 4.73 E96_VALUES = false ∧
      ∃ w, (find_e_series 47300).2 = some w ∧
        (∃ val ∈ E96_VALUES, w = val * 10 ^ qFloorLog10 47300) ∧
        ∀ val ∈ E96_VALUES, |w - 47300| ≤ |val * 10 ^ qFloorLog10 47300 - 47300|) :=
  claim_C3_series_matcher 47300 (by norm_num) 4.73 (by decide)

/-! ## C5: the 5-band encoder crashes at the rounding boundary -/

/-- C5: at `ohms = 999.5` the 5-band search accepts multiplier 1
(`candidate = 999.5` is inside the inclusive window and the rounded
significand 1000 — banker's rounding — passes the 0.1% round-trip gate),
then crashes looking up digit 10 in `DIGIT_TO_COLOR`: an uncaught
`KeyError`, neither a well-formed result nor the documented
`Unrepresentable` `ValueError`. -/
theorem claim_C5_keyerror :
    encode_resistor 999.5 1 = Except.error (REncodeErr.digitKeyError 10) := by
  decide

/-! ## C4: unknown colours -/

/-- C4 counterexample: "white" is a digit colour but not a tolerance
colour; in the tolerance position it is silently defaulted to a missing
tolerance instead of failing. -/
theorem claim_C4_counterexample :
    decode_resistor (["brown", "black", "black", "red", "white"]) =
      Except.ok ⟨10000, none, ["brown", "black", "black", "red", "white"],
        some ("E12"), none⟩ := by
  decide

/-- C4 amended: an unknown colour in a digit or multiplier position fails
with an error naming the offending colour (first offender in evaluation
order), but an unknown colour in the tolerance position is silently
defaulted: the decode succeeds with a missing tolerance (`TOLERANCE_COLORS`
lookup result), for both 5-band and 4-band inputs. -/
theorem claim_C4_amended : ∀ s1 s2 s3 s4 s5 : String,
    (DIGIT_COLORS (normColor s1) = none →
      decode_resistor [s1, s2, s3, s4, s5] =
        Except.error (RDecodeErr.unknownColor5 (normColor s1))) ∧
    (∀ d1, DIGIT_COLORS (normColor s1) = some d1 →
      DIGIT_COLORS (normColor s2) = none →
      decode_resistor [s1, s2, s3, s4, s5] =
        Except.error (RDecodeErr.unknownColor5 (normColor s2))) ∧
    (∀ d1 d2, DIGIT_COLORS (normColor s1) = some d1 →
      DIGIT_COLORS (normColor s2) = some d2 →
      DIGIT_COLORS (normColor s3) = none →
      decode_resistor [s1, s2, s3, s4, s5] =
        Except.error (RDecodeErr.unknownColor5 (normColor s3))) ∧
    (∀ d1 d2 d3, DIGIT_COLORS (normColor s1) = some d1 →
      DIGIT_COLORS (normColor s2) = some d2 →
      DIGIT_COLORS (normColor s3) = some d3 →
      MULTIPLIER_COLORS (normColor s4) = none →
      decode_resistor [s1, s2, s3, s4, s5] =
        Except.error (RDecodeErr.unknownColor5 (normColor s4))) ∧
    (∀ d1 d2 d3 m, DIGIT_COLORS (normColor s1) = some d1 →
      DIGIT_COLORS (normColor s2) = some d2 →
      DIGIT_COLORS (normColor s3) = some d3 →
      MULTIPLIER_COLORS (normColor s4) = some m →
      ∃ r, decode_resistor [s1, s2, s3, s4, s5] = Except.ok r ∧
        r.tolerance_percent = TOLERANCE_COLORS (normColor s5)) ∧
    (DIGIT_COLORS (normColor s1) = none →
      decode_resistor [s1, s2, s3, s4] =
        Except.error (RDecodeErr.unknownColor4 (normColor s1))) ∧
    (∀ d1, DIGIT_COLORS (normColor s1) = some d1 →
      DIGIT_COLORS (normColor s2) = none →
      decode_resistor [s1, s2, s3, s4] =
        Except.error (RDecodeErr.unknownColor4 (normColor s2))) ∧
    (∀ d1 d2, DIGIT_COLORS (normColor s1) = some d1 →
      DIGIT_COLORS (normColor s2) = some d2 →
      MULTIPLIER_COLORS (normColor s3) = none →
      decode_resistor [s1, s2, s3, s4] =
        Except.error (RDecodeErr.unknownColor4 (normColor s3))) ∧
    (∀ d1 d2 m, DIGIT_COLORS (normColor s1) = some d1 →
      DIGIT_COLORS (normColor s2) = some d2 →
      MULTIPLIER_COLORS (normColor s3) = some m →
      ∃ r, decode_resistor [s1, s2, s3, s4] = Except.ok r ∧
        r.tolerance_percent = TOLERANCE_COLORS (normColor s4)) := by
  intro s1 s2 s3 s4 s5
  refine ⟨?_, ?_, ?_, ?_, ?_, ?_, ?_, ?_, ?_⟩
  · intro h1
    simp [decode_resistor, h1, need_none, except_bind_error]
  · intro d1 h1 h2
    simp [decode_resistor, h1, h2, need_some, need_none, except_bind_ok,
      except_bind_error]
  · intro d1 d2 h1 h2 h3
    simp [decode_resistor, h1, h2, h3, need_some, need_none, except_bind_ok,
      except_bind_error]
  · intro d1 d2 d3 h1 h2 h3 h4
    simp [decode_resistor, h1, h2, h3, h4, need_some, need_none,
      except_bind_ok, except_bind_error]
  · intro d1 d2 d3 m h1 h2 h3 h4
    refine ⟨⟨((d1 * 100 + d2 * 10 + d3 : ℕ) : ℚ) * m,
      TOLERANCE_COLORS (normColor s5),
      [normColor s1, normColor s2, normColor s3, normColor s4, normColor s5],
      (find_e_series (((d1 * 100 + d2 * 10 + d3 : ℕ) : ℚ) * m)).1,
      (find_e_series (((d1 * 100 + d2 * 10 + d3 : ℕ) : ℚ) * m)).2⟩, ?_, rfl⟩
    simp [decode_resistor, h1, h2, h3, h4, need_some, except_bind_ok]
  · intro h1
    simp [decode_resistor, h1, need_none, except_bind_error]
  · intro d1 h1 h2
    simp [decode_resistor, h1, h2, need_some, need_none, except_bind_ok,
      except_bind_error]
  · intro d1 d2 h1 h2 h3
    simp [decode_resistor, h1, h2, h3, need_some, need_none, except_bind_ok,
      except_bind_error]
  · intro d1 d2 m h1 h2 h3
    refine ⟨⟨((d1 * 10 + d2 : ℕ) : ℚ) * m, TOLERANCE_COLORS (normColor s4),
      [normColor s1, normColor s2, normColor s3, normColor s4],
      (find_e_series (((d1 * 10 + d2 : ℕ) : ℚ) * m)).1,
      (find_e_series (((d1 * 10 + d2 : ℕ) : ℚ) * m)).2⟩, ?_, rfl⟩
    simp [decode_resistor, h1, h2, h3, need_some, except_bind_ok]

/-- C4 witness: an unknown colour in a digit position does fail, naming the
colour. -/
theorem claim_C4_witness :
    decode_resistor [("pink"), ("red"), ("red"), ("red"), ("gold")] =
      Except.error (RDecodeErr.unknownColor5 ("pink")) :=
  (claim_C4_amended ("pink") ("red") ("red") ("red") ("gold")).1 (by decide)

/-! ## C6: magnitudes of successful decodes -/

/-- C6 counterexample: all-black digit bands decode to 0 Ω with no error
(and, incidentally, with both E-series fields empty). -/
theorem claim_C6_counterexample :
    decode_resistor (["black", "black", "black", "red", "brown"]) =
      Except.ok ⟨0, some 1, ["black", "black", "black", "red", "brown"],
        none, none⟩ := by
  decide

theorem UNIT_TO_PF_pos (s : String) (m : ℚ) (h : UNIT_TO_PF s = some m) :
    0 < m := by
  unfold UNIT_TO_PF at h
  split at h <;> (try cases h) <;> norm_num

theorem unitMultiplier_pos (s : String) (m : ℚ) (h : unitMultiplier s = some m) :
    0 < m := by
  unfold unitMultiplier at h
  split at h
  · next m' heq => cases h; exact UNIT_TO_PF_pos _ _ heq
  · exact UNIT_TO_PF_pos _ _ h

theorem parseFloat_nonneg (cs : List Char) (v : ℚ) (r : List Char)
    (h : parseFloat cs = some (v, r)) : 0 ≤ v := by
  unfold parseFloat at h
  dsimp only at h
  split at h
  · cases h
  · split at h <;> (cases h; positivity)

theorem try_eia_pf_nonneg (cs : List Char) (o : String) (r : DecodedCap)
    (h : try_eia cs o = some r) : 0 ≤ r.capacitance.pf := by
  unfold try_eia at h
  dsimp only at h
  split at h
  · split at h
    · split at h
      · cases h
      · cases h
        dsimp only [pf_to_units]
        split_ifs <;> positivity
    · cases h
  · cases h

theorem try_alpha_pf_nonneg (cs : List Char) (o : String) (r : DecodedCap)
    (h : try_alpha cs o = some r) : 0 ≤ r.capacitance.pf := by
  unfold try_alpha at h
  dsimp only at h
  split at h
  · cases h
  · next value r1 heqf =>
    split at h
    · next u r3 =>
      split at h
      · split at h
        · cases h
        · split at h
          · cases h
          · next mult hequ =>
            cases h
            dsimp only [pf_to_units]
            exact mul_nonneg (parseFloat_nonneg _ _ _ heqf)
              (le_of_lt (unitMultiplier_pos _ _ hequ))
      · cases h
    · cases h

theorem try_rdecimal_pf_nonneg (cs : List Char) (o : String) (r : DecodedCap)
    (h : try_rdecimal cs o = some r) : 0 ≤ r.capacitance.pf := by
  unfold try_rdecimal at h
  dsimp only at h
  split at h
  · cases h
  · split at h
    · next u r2 =>
      split at h
      · split at h
        · cases h
        · split at h
          · cases h
          · split at h
            · cases h
            · next mult hequ =>
              cases h
              dsimp only [pf_to_units]
              exact mul_nonneg (by positivity)
                (le_of_lt (unitMultiplier_pos _ _ hequ))
      · cases h
    · cases h

theorem try_electrolytic_pf_nonneg (cs : List Char) (o : String) (r : DecodedCap)
    (h : try_electrolytic cs o = some r) : 0 ≤ r.capacitance.pf := by
  unfold try_electrolytic at h
  dsimp only at h
  split at h
  · cases h
  · next value r1 heqf =>
    split at h
    · next u r3 =>
      split at h
      · split at h
        · cases h
        · split at h
          · split at h
            · split at h
              · cases h
              · next mult hequ =>
                cases h
                dsimp only [pf_to_units]
                exact mul_nonneg (parseFloat_nonneg _ _ _ heqf)
                  (le_of_lt (unitMultiplier_pos _ _ hequ))
            · cases h
          · cases h
      · cases h
    · cases h

/-- C6 amended: every successful decode carries a *nonnegative* magnitude;
zero is reachable (all-black digit bands, zero numeric markings), so the
magnitudes are not strictly positive. -/
theorem claim_C6_amended :
    (∀ bands r, decode_resistor bands = Except.ok r → 0 ≤ r.ohms) ∧
    (∀ m r, decode_capacitor m = Except.ok r → 0 ≤ r.capacitance.pf) := by
  constructor
  · intro bands r h
    unfold decode_resistor at h
    dsimp only at h
    split at h
    · rcases hv1 : DIGIT_COLORS _ with _ | v1 <;> rw [hv1] at h
      · simp [need_none, except_bind_error] at h
      rcases hv2 : DIGIT_COLORS _ with _ | v2 <;> rw [hv2] at h
      · simp [need_some, need_none, except_bind_ok, except_bind_error] at h
      rcases hv3 : DIGIT_COLORS _ with _ | v3 <;> rw [hv3] at h
      · simp [need_some, need_none, except_bind_ok, except_bind_error] at h
      rcases hm : MULTIPLIER_COLORS _ with _ | m <;> rw [hm] at h
      · simp [need_some, need_none, except_bind_ok, except_bind_error] at h
      simp only [need_some, except_bind_ok] at h
      cases h
      exact mul_nonneg (by positivity) (le_of_lt (mult_colors_pos _ _ hm))
    · rcases hv1 : DIGIT_COLORS _ with _ | v1 <;> rw [hv1] at h
      · simp [need_none, except_bind_error] at h
      rcases hv2 : DIGIT_COLORS _ with _ | v2 <;> rw [hv2] at h
      · simp [need_some, need_none, except_bind_ok, except_bind_error] at h
      rcases hm : MULTIPLIER_COLORS _ with _ | m <;> rw [hm] at h
      · simp [need_some, need_none, except_bind_ok, except_bind_error] at h
      simp only [need_some, except_bind_ok] at h
      cases h
      exact mul_nonneg (by positivity) (le_of_lt (mult_colors_pos _ _ hm))
    · cases h
  · intro m r h
    unfold decode_capacitor at h
    dsimp only at h
    split at h
    · cases h
    · split at h
      · next heq => cases h; exact try_electrolytic_pf_nonneg _ _ _ heq
      · split at h
        · next heq => cases h; exact try_rdecimal_pf_nonneg _ _ _ heq
        · split at h
          · next heq => cases h; exact try_alpha_pf_nonneg _ _ _ heq
          · split at h
            · next heq => cases h; exact try_eia_pf_nonneg _ _ _ heq
            · cases h

/-- C6 witness: a successful decode with its (nonnegative) magnitude. -/
theorem claim_C6_witness :
    decode_resistor (["yellow", "violet", "black", "red", "brown"]) =
        Except.ok ⟨47000, some 1, ["yellow", "violet", "black", "red", "brown"],
          some ("E12"), none⟩ ∧
      (0:ℚ) ≤ 47000 :=
  ⟨by decide, claim_C6_amended.1 (["yellow", "violet", "black", "red", "brown"])
    ⟨47000, some 1, ["yellow", "violet", "black", "red", "brown"],
      some ("E12"), none⟩ (by decide)⟩

/-! ## C2: grammar precedence of `decode_capacitor` -/

theorem try_electrolytic_nil (o : String) : try_electrolytic [] o = none := rfl

theorem try_rdecimal_nil (o : String) : try_rdecimal [] o = none := rfl

theorem try_alpha_nil (o : String) : try_alpha [] o = none := rfl

theorem try_eia_nil (o : String) : try_eia [] o = none := rfl

/-- Every electrolytic match fixes tolerance ±20% (letter "M"), type
electrolytic and confidence 0.95. -/
theorem try_electrolytic_fixed (cs : List Char) (o : String) (r : DecodedCap)
    (h : try_electrolytic cs o = some r) :
    r.tolerance_percent = some 20 ∧ r.tolerance_letter = some ("M") ∧
      r.cap_type = CapType.electrolytic ∧ r.confidence = 0.95 := by
  unfold try_electrolytic at h
  dsimp only at h
  split at h
  · cases h
  · split at h
    · split at h
      · split at h
        · cases h
        · split at h
          · split at h
            · split at h
              · cases h
              · cases h
                exact ⟨rfl, rfl, rfl, rfl⟩
            · cases h
          · cases h
      · cases h
    · cases h

/-- C2: `decode_capacitor` tries the four grammars in the fixed order
electrolytic, R-decimal, alphanumeric, bare EIA and returns the first
successful match; `"47uF 25V"` is decoded by the electrolytic grammar with
tolerance fixed at ±20% (letter "M") and confidence 0.95. -/
theorem claim_C2_grammar_precedence :
    (∀ m r, try_electrolytic (pyStrip m.data) (String.mk (pyStrip m.data)) = some r →
      decode_capacitor m = Except.ok r) ∧
    (∀ m r, try_electrolytic (pyStrip m.data) (String.mk (pyStrip m.data)) = none →
      try_rdecimal (pyStrip m.data) (String.mk (pyStrip m.data)) = some r →
      decode_capacitor m = Except.ok r) ∧
    (∀ m r, try_electrolytic (pyStrip m.data) (String.mk (pyStrip m.data)) = none →
      try_rdecimal (pyStrip m.data) (String.mk (pyStrip m.data)) = none →
      try_alpha (pyStrip m.data) (String.mk (pyStrip m.data)) = some r →
      decode_capacitor m = Except.ok r) ∧
    (∀ m r, try_electrolytic (pyStrip m.data) (String.mk (pyStrip m.data)) = none →
      try_rdecimal (pyStrip m.data) (String.mk (pyStrip m.data)) = none →
      try_alpha (pyStrip m.data) (String.mk (pyStrip m.data)) = none →
      try_eia (pyStrip m.data) (String.mk (pyStrip m.data)) = some r →
      decode_capacitor m = Except.ok r) ∧
    (∀ cs o r, try_electrolytic cs o = some r →
      r.tolerance_percent = some 20 ∧ r.tolerance_letter = some ("M") ∧
        r.cap_type = CapType.electrolytic ∧ r.confidence = 0.95) ∧
    decode_capacitor ("47uF 25V") =
      Except.ok ⟨⟨47000000, 47000, 47⟩, some 20, some ("M"), some 25,
        CapType.electrolytic, "47uF 25V", 0.95⟩ := by
  have hne : ∀ m : String, ∀ r : DecodedCap,
      try_electrolytic (pyStrip m.data) (String.mk (pyStrip m.data)) = some r →
      (pyStrip m.data).isEmpty = false := by
    intro m r h
    cases he : pyStrip m.data with
    | nil => rw [he] at h; rw [try_electrolytic_nil] at h; cases h
    | cons a t => rfl
  refine ⟨?_, ?_, ?_, ?_, fun cs o r => try_electrolytic_fixed cs o r, by decide⟩
  · intro m r h
    unfold decode_capacitor
    dsimp only
    rw [hne m r h, if_neg (by simp), h]
  · intro m r h1 h2
    cases he : pyStrip m.data with
    | nil => rw [he, try_rdecimal_nil] at h2; cases h2
    | cons a t =>
      unfold decode_capacitor
      dsimp only
      rw [he] at h1 h2 ⊢
      rw [if_neg (by simp), h1, h2]
  · intro m r h1 h2 h3
    cases he : pyStrip m.data with
    | nil => rw [he, try_alpha_nil] at h3; cases h3
    | cons a t =>
      unfold decode_capacitor
      dsimp only
      rw [he] at h1 h2 h3 ⊢
      rw [if_neg (by simp), h1, h2, h3]
  · intro m r h1 h2 h3 h4
    cases he : pyStrip m.data with
    | nil => rw [he, try_eia_nil] at h4; cases h4
    | cons a t =>
      unfold decode_capacitor
      dsimp only
      rw [he] at h1 h2 h3 h4 ⊢
      rw [if_neg (by simp), h1, h2, h3, h4]

/-- C2 witness: the R-decimal grammar is reached only after the
electrolytic one fails (`"4n7"`). -/
theorem claim_C2_witness :
    decode_capacitor ("4n7") =
      Except.ok ⟨⟨4700, 47/10, 47/10000⟩, none, none, none,
        CapType.film_box, "4n7", 1⟩ :=
  claim_C2_grammar_precedence.2.1 ("4n7")
    ⟨⟨4700, 47/10, 47/10000⟩, none, none, none, CapType.film_box, "4n7", 1⟩
    (by decide) (by decide)

/-! ## C10: heuristic type classification -/

theorem try_eia_type (cs : List Char) (o : String) (r : DecodedCap)
    (h : try_eia cs o = some r) :
    r.cap_type = guess_type_from_pf r.capacitance.pf r.voltage_max := by
  unfold try_eia at h
  dsimp only at h
  split at h
  · split at h
    · split at h
      · cases h
      · cases h
        rfl
    · cases h
  · cases h

theorem try_alpha_type (cs : List Char) (o : String) (r : DecodedCap)
    (h : try_alpha cs o = some r) :
    r.cap_type = guess_type_from_pf r.capacitance.pf r.voltage_max := by
  unfold try_alpha at h
  dsimp only at h
  split at h
  · cases h
  · split at h
    · split at h
      · split at h
        · cases h
        · split at h
          · cases h
          · cases h
            rfl
      · cases h
    · cases h

theorem try_rdecimal_type (cs : List Char) (o : String) (r : DecodedCap)
    (h : try_rdecimal cs o = some r) :
    r.cap_type = guess_type_from_pf r.capacitance.pf r.voltage_max := by
  unfold try_rdecimal at h
  dsimp only at h
  split at h
  · cases h
  · split at h
    · split at h
      · split at h
        · cases h
        · split at h
          · cases h
          · split at h
            · cases h
            · cases h
              rfl
      · cases h
    · cases h

/-- C10: the classification heuristic and its thresholds: ≥1µF →
electrolytic; <1000pF → ceramic; 1nF–1µF → film/box (with or without a
high parsed voltage); every non-electrolytic grammar assigns its type via
this heuristic; and `decode_capacitor "473"` gives 47000 pF, film/box. -/
theorem claim_C10_type_heuristic :
    (∀ (pf : ℚ) (v : Option ℕ),
      ((1000000:ℚ) ≤ pf → guess_type_from_pf pf v = CapType.electrolytic) ∧
      (pf < 1000 → guess_type_from_pf pf v = CapType.ceramic) ∧
      (1000 ≤ pf → pf < 1000000 → guess_type_from_pf pf v = CapType.film_box)) ∧
    (∀ cs o r, try_eia cs o = some r →
      r.cap_type = guess_type_from_pf r.capacitance.pf r.voltage_max) ∧
    (∀ cs o r, try_alpha cs o = some r →
      r.cap_type = guess_type_from_pf r.capacitance.pf r.voltage_max) ∧
    (∀ cs o r, try_rdecimal cs o = some r →
      r.cap_type = guess_type_from_pf r.capacitance.pf r.voltage_max) ∧
    decode_capacitor ("473") =
      Except.ok ⟨⟨47000, 47, 47/1000⟩, none, none, none, CapType.film_box,
        "473", 1⟩ := by
  refine ⟨?_, try_eia_type, try_alpha_type, try_rdecimal_type, by decide⟩
  intro pf v
  refine ⟨fun h => ?_, fun h => ?_, fun h1 h2 => ?_⟩
  · unfold guess_type_from_pf
    rw [if_pos (show (1:ℚ) ≤ pf / 1000000 by
      rw [le_div_iff₀ (by norm_num : (0:ℚ) < 1000000)]; linarith)]
  · unfold guess_type_from_pf
    rw [if_neg (show ¬(1:ℚ) ≤ pf / 1000000 by
      intro hx
      rw [le_div_iff₀ (by norm_num : (0:ℚ) < 1000000)] at hx
      linarith), if_pos h]
  · unfold guess_type_from_pf
    rw [if_neg (show ¬(1:ℚ) ≤ pf / 1000000 by
      intro hx
      rw [le_div_iff₀ (by norm_num : (0:ℚ) < 1000000)] at hx
      linarith), if_neg (not_lt.mpr h1)]
    dsimp only
    split_ifs with hv hD
    · rfl
    · rfl
    · exact absurd ⟨h1, by linarith⟩ hD

/-- C10 witness: classification at 500 pF (ceramic band). -/
theorem claim_C10_witness :
    (500:ℚ) < 1000 ∧ guess_type_from_pf 500 none = CapType.ceramic :=
  ⟨by norm_num, (claim_C10_type_heuristic.1 500 none).2.1 (by norm_num)⟩

/-! ## C7: `encode_capacitor` argument validation -/

/-- C7 counterexample: with exactly one supplied magnitude that is not
positive and an unsupported tolerance (3%), the positivity check fires
first: the error is InvalidInput (non-positive capacitance), not
UnsupportedParameter as the claim requires. -/
theorem claim_C7_counterexample :
    encode_capacitor (some 0) none none 3 none =
        Except.error CapEncodeErr.nonPositiveCapacitance ∧
      (Except.error (CapEncodeErr.unsupportedTolerance 3) :
          Except CapEncodeErr EncodedCap) ≠
        encode_capacitor (some 0) none none 3 none := by
  exact ⟨by decide, by decide⟩

theorem encode_eia_error_shape (pf : ℚ) (e : CapEncodeErr)
    (h : encode_eia pf = Except.error e) :
    e = CapEncodeErr.nonPositiveCapacitance ∨ e = CapEncodeErr.unrepresentableEIA pf := by
  unfold encode_eia at h
  dsimp only at h
  split_ifs at h with h1 h2 h3 h4
  all_goals try exact Or.inl (Except.error.inj h).symm
  all_goals try exact Or.inr (Except.error.inj h).symm
  all_goals split at h
  all_goals first
    | exact Or.inr (Except.error.inj h).symm
    | exact absurd h (by simp)

/-- C7 amended: a wrong count of magnitude arguments is always an
InvalidInput error; an unsupported tolerance percent (the closed set is
exactly {1,2,5,10,20}) gives UnsupportedParameter *provided* the single
magnitude is positive — a non-positive magnitude fails first with
InvalidInput; with one magnitude argument and a supported tolerance the
call never fails for either of these two reasons. -/
theorem claim_C7_amended :
    (∀ t : ℚ, (TOLERANCE_TO_LETTER t).isSome ↔
      (t = 1 ∨ t = 2 ∨ t = 5 ∨ t = 10 ∨ t = 20)) ∧
    (∀ pf nf uf t v, [pf, nf, uf].countP Option.isSome ≠ 1 →
      encode_capacitor pf nf uf t v = Except.error CapEncodeErr.wrongValueCount) ∧
    (∀ pf nf uf t v, [pf, nf, uf].countP Option.isSome = 1 →
      0 < resolve_pf pf nf uf → TOLERANCE_TO_LETTER t = none →
      encode_capacitor pf nf uf t v =
        Except.error (CapEncodeErr.unsupportedTolerance t)) ∧
    (∀ pf nf uf t v l, [pf, nf, uf].countP Option.isSome = 1 →
      TOLERANCE_TO_LETTER t = some l →
      encode_capacitor pf nf uf t v ≠ Except.error CapEncodeErr.wrongValueCount ∧
      ∀ t', encode_capacitor pf nf uf t v ≠
        Except.error (CapEncodeErr.unsupportedTolerance t')) := by
  refine ⟨?_, ?_, ?_, ?_⟩
  · intro t
    unfold TOLERANCE_TO_LETTER
    split_ifs with h1 h2 h3 h4 h5 <;> simp_all
  · intro pf nf uf t v h
    unfold encode_capacitor
    dsimp only
    rw [if_pos h]
  · intro pf nf uf t v hc hpos htol
    unfold encode_capacitor
    dsimp only
    rw [if_neg (by simp [hc]), if_neg (not_le.mpr hpos), htol]
  · intro pf nf uf t v l hc hl
    unfold encode_capacitor
    dsimp only
    rw [if_neg (by simp [hc])]
    by_cases hp : resolve_pf pf nf uf ≤ 0
    · rw [if_pos hp]
      exact ⟨by simp, fun t' => by simp⟩
    · rw [if_neg hp, hl]
      dsimp only
      cases he : encode_eia (resolve_pf pf nf uf) with
      | error e =>
        rcases encode_eia_error_shape _ _ he with rfl | rfl <;>
          exact ⟨by simp [except_bind_error], fun t' => by simp [except_bind_error]⟩
      | ok s =>
        exact ⟨by simp [except_bind_ok], fun t' => by simp [except_bind_ok]⟩

/-- C7 witness: zero magnitude arguments are rejected as InvalidInput. -/
theorem claim_C7_witness :
    encode_capacitor none none none 10 none =
      Except.error CapEncodeErr.wrongValueCount :=
  claim_C7_amended.2.1 none none none 10 none (by decide)

/-! ## C9: capacitor encoding of 470 pF and the alphanumeric unit choice -/

/-- C9: `encode_capacitor(pf=470, tolerance_percent=10)` yields full film
code "471K" and full alphanumeric code "0n47K"; the alphanumeric generator
uses microfarads for ≥ 0.1 µF (100000 pF), else nanofarads for ≥ 0.1 nF
(100 pF), else picofarads, rendering non-integral values in R-decimal
notation (e.g. 4700 pF → "4n7"). -/
theorem claim_C9_alpha_encoding :
    encode_capacitor (some 470) none none 10 none =
      Except.ok ⟨⟨470, 47/100, 47/100000⟩, "471", "0n47", "471K", "0n47K",
        "K", none⟩ ∧
    encode_alpha 4700 = "4n7" ∧
    (∀ pf : ℚ,
      ((100000:ℚ) ≤ pf → encode_alpha pf = alpha_fmt (pf / 1000000) ("u")) ∧
      (pf < 100000 → (100:ℚ) ≤ pf → encode_alpha pf = alpha_fmt (pf / 1000) ("n")) ∧
      (pf < 100 → encode_alpha pf = alpha_fmt pf ("p"))) := by
  refine ⟨by decide, by decide, ?_⟩
  intro pf
  refine ⟨fun h => ?_, fun h1 h2 => ?_, fun h => ?_⟩
  · unfold encode_alpha
    dsimp only
    rw [if_pos (show (0.1:ℚ) ≤ pf / 1000000 by
      rw [le_div_iff₀ (by norm_num : (0:ℚ) < 1000000)]; linarith)]
  · unfold encode_alpha
    dsimp only
    rw [if_neg (show ¬(0.1:ℚ) ≤ pf / 1000000 by
        intro hx
        rw [le_div_iff₀ (by norm_num : (0:ℚ) < 1000000)] at hx
        linarith),
      if_pos (show (0.1:ℚ) ≤ pf / 1000 by
        rw [le_div_iff₀ (by norm_num : (0:ℚ) < 1000)]; linarith)]
  · unfold encode_alpha
    dsimp only
    rw [if_neg (show ¬(0.1:ℚ) ≤ pf / 1000000 by
        intro hx
        rw [le_div_iff₀ (by norm_num : (0:ℚ) < 1000000)] at hx
        linarith),
      if_neg (show ¬(0.1:ℚ) ≤ pf / 1000 by
        intro hx
        rw [le_div_iff₀ (by norm_num : (0:ℚ) < 1000)] at hx
        linarith)]

/-- C9 witness: at 470 pF the nanofarad unit is chosen. -/
theorem claim_C9_witness :
    (470:ℚ) < 100000 ∧ (100:ℚ) ≤ 470 ∧
      encode_alpha 470 = alpha_fmt (470 / 1000) ("n") :=
  ⟨by norm_num, by norm_num,
    (claim_C9_alpha_encoding.2.2 470).2.1 (by norm_num) (by norm_num)⟩

/-! ## C1: round-trip of `encode_resistor` / `decode_resistor` -/

end PedalPath
